import Mathlib

/-!
Shallow embedding of the central service of the Moniker/Designate DNS control
plane (`moniker/central/service.py`), together with theorems settling the
spec claims about it.

External collaborators (storage engine, backend driver, policy engine, the
regular-expression library) are modelled as explicit parameters:
* Storage is an in-memory structure of lists; its `get`/`find` operations
  return `Option` where the Python raises `<Entity>NotFound`.
* The policy engine is a function deciding each `policy.check` call; a
  `false` decision corresponds to `policy.check` raising `Forbidden`.
* Python truthiness, where the source relies on it (the blacklist pattern
  returned by `_is_blacklisted_domain_name`, and the values returned by the
  backend / storage `ping`), is modelled explicitly.
Each service operation returns its `Except` outcome together with the
post-state of Storage and the list of side effects (storage writes, backend
driver calls, emitted notifications) in the order the source performs them,
so that claims about "no write / no backend call / no notification" are
directly statable.
-/

namespace Moniker

/-- A DNS zone row, as stored. -/
structure Domain where
  id : Nat
  name : String
  email : String
  tenant_id : String
  parent_domain_id : Option Nat
  deriving DecidableEq, Repr

/-- A DNS record row, as stored. -/
structure DnsRecord where
  id : Nat
  domain_id : Nat
  name : String
  rtype : String
  data : String
  deriving DecidableEq, Repr

/-- A nameserver row, as stored. -/
structure Server where
  id : Nat
  name : String
  deriving DecidableEq, Repr

/-- The storage collaborator's visible state. -/
structure Storage where
  domains : List Domain
  records : List DnsRecord
  servers : List Server
  deriving DecidableEq, Repr

/-- A request context: tenant identity and admin flag. -/
structure Context where
  tenant_id : String
  is_admin : Bool
  deriving DecidableEq, Repr

/-- The target mapping handed to `policy.check` (values rendered as strings). -/
abbrev Target := List (String × String)

/-- The policy collaborator: decides each `policy.check(action, context, target)`
call; `false` corresponds to the check raising `Forbidden`. -/
abbrev Policy := String → Context → Target → Bool

/-- The exceptions the service raises (`moniker.exceptions`). -/
inductive Err where
  | Forbidden (msg : String)
  | BadRequest (msg : String)
  | DomainNotFound
  | RecordNotFound
  | NoServersConfigured
  deriving DecidableEq, Repr

/-- A side effect performed by an operation: a storage write, a backend driver
call, an emitted notification, or a notification-handler invocation. -/
inductive Effect where
  | storageWrite (op : String)
  | backendCall (op : String)
  | notifyEvent (event : String)
  | handlerCall (hid : Nat) (event : String) (payload : String)
  deriving DecidableEq, Repr

/-- Result of a service operation: the `Except` outcome, the post-state of
Storage, and the side effects performed, in order. -/
abbrev OpResult (α : Type) := Except Err α × Storage × List Effect

/-! ## Ping (`Service.ping`) -/

/-- A Python value as far as `ping` handles one: the health indicators
returned by the backend / storage drivers and the dict `ping` builds. -/
inductive PyVal where
  | bool (b : Bool)
  | str (s : String)
  | dict (entries : List (String × PyVal))

/-- Python truthiness of such a value: `False` is falsy, a string is truthy
iff non-empty, a dict is truthy iff non-empty. -/
def PyVal.truthy : PyVal → Bool
  | .bool b => b
  | .str s => !s.isEmpty
  | .dict es => !es.isEmpty

/-- One `try: ... except Exception, e:` arm of `ping`: the driver's `ping`
either returns a value or raises, in which case the status becomes the dict
`{'status': False, 'message': str(e)}`. -/
def pingStatusOf : Except String PyVal → PyVal
  | .ok v => v
  | .error e => .dict [("status", .bool false), ("message", .str e)]

/-- `Service.ping`: policy check, then the two independently-guarded driver
pings; the overall `status` is computed by `if backend_status and
storage_status:`, i.e. by Python truthiness of the two values. -/
def ping (pol : Policy) (ctx : Context) (host : String)
    (backend_ping storage_ping : Except String PyVal) : Except Err PyVal :=
  if pol "diagnostics_ping" ctx [] then
    let backend_status := pingStatusOf backend_ping
    let storage_status := pingStatusOf storage_ping
    let status := backend_status.truthy && storage_status.truthy
    .ok (.dict [("host", .str host), ("status", .bool status),
                ("backend", backend_status), ("storage", storage_status)])
  else .error (Err.Forbidden "diagnostics_ping")

/-- Claim C1 (code bug evidence): when the backend driver's `ping` raises and
the storage `ping` returns a truthy health dict, the returned mapping's
`backend` entry is the converted `status: false` dict as the claim says, but
the overall `status` field is `true`, not `false`: the converted error dict
is a non-empty dict, hence truthy under the source's `if backend_status and
storage_status:` test. -/
theorem C1_ping_overall_status_bug :
    ping (fun _ _ _ => true) ⟨"tenantA", false⟩ "host0"
      (.error "backend boom") (.ok (.dict [("status", .bool true)]))
      = .ok (.dict [("host", .str "host0"), ("status", .bool true),
          ("backend", .dict [("status", .bool false),
                             ("message", .str "backend boom")]),
          ("storage", .dict [("status", .bool true)])]) := rfl

/-! ## Notification dispatch (`Service._process_notification`) -/

/-- A loaded notification handler: its registration index and the event types
it declares via `get_event_types()`. -/
structure Handler where
  id : Nat
  event_types : List String
  deriving DecidableEq, Repr

/-- An inbound platform notification. -/
structure Notification where
  event_type : String
  payload : String
  deriving DecidableEq, Repr

/-- `Service._get_handler_event_types`: the union, over the loaded handlers,
of the event types each declares (built as a set; only membership is used). -/
def get_handler_event_types (handlers : List Handler) : List String :=
  handlers.foldl (fun acc h => acc ++ h.event_types) []

/-- `Service._process_notification_for_handler`: invoke the handler's
`process_notification(event_type, payload)` iff the handler's own declared
event-type set contains the notification's event type. -/
def process_notification_for_handler (h : Handler) (n : Notification) :
    List Effect :=
  if n.event_type ∈ h.event_types then
    [.handlerCall h.id n.event_type n.payload]
  else []

/-- `Service._process_notification`: short-circuit when no loaded handler
declares the event type; otherwise offer the notification to every handler
in registration order. -/
def process_notification (handlers : List Handler) (n : Notification) :
    List Effect :=
  if n.event_type ∈ get_handler_event_types handlers then
    handlers.foldl (fun acc h => acc ++ process_notification_for_handler h n) []
  else []

/-! ## Storage collaborator operations -/

/-- Storage `get_domain(domain_id)`: `none` models `DomainNotFound`. -/
def storage_get_domain (st : Storage) (domain_id : Nat) : Option Domain :=
  st.domains.find? (fun d => d.id == domain_id)

/-- Storage `find_domain(criterion = {'name': name})`: `none` models
`DomainNotFound`. -/
def storage_find_domain (st : Storage) (name : String) : Option Domain :=
  st.domains.find? (fun d => d.name == name)

/-- Storage `get_record(record_id)`: `none` models `RecordNotFound`. -/
def storage_get_record (st : Storage) (record_id : Nat) : Option DnsRecord :=
  st.records.find? (fun r => r.id == record_id)

/-- A fresh id the storage engine assigns to a created domain. -/
def freshDomainId (st : Storage) : Nat :=
  st.domains.foldl (fun m d => max m (d.id + 1)) 0

/-- A fresh id the storage engine assigns to a created record. -/
def freshRecordId (st : Storage) : Nat :=
  st.records.foldl (fun m r => max m (r.id + 1)) 0

/-! ## Subdomain resolution (`Service._is_subdomain`) -/

/-- Python `domain_name.split(".")` on the character list: split at every
dot, keeping empty fragments (so a trailing dot yields a final `""` label
and a dotless string yields the single label `[s]`). -/
def splitCharsOnDot : List Char → List (List Char)
  | [] => [[]]
  | c :: cs =>
    if c = '.' then [] :: splitCharsOnDot cs
    else
      match splitCharsOnDot cs with
      | a :: as => (c :: a) :: as
      | [] => [[c]]

/-- Python `domain_name.split(".")`. -/
def splitDots (s : String) : List String :=
  (splitCharsOnDot s.data).map String.mk

/-- Python `suffix_str.endswith(...)` test: `strEndsWith s suffix` holds iff
`suffix`'s characters are a suffix of `s`'s characters. -/
def strEndsWith (s suffix : String) : Bool :=
  suffix.data.isSuffixOf s.data

/-- `'.'.join(labels)`. -/
def joinDots (labels : List String) : String :=
  String.intercalate "." labels

/-- The `while (i < len(labels))` loop of `_is_subdomain`, phrased on the
suffix `labels[i:]`: test the current suffix's dotted name against Storage
and return the first domain found, else advance to the next shorter suffix.
An empty suffix corresponds to `i = len(labels)`, where the loop exits. -/
def subdomainSearchFrom (st : Storage) : List String → Option Domain
  | [] => none
  | l :: rest =>
    match storage_find_domain st (joinDots (l :: rest)) with
    | some d => some d
    | none => subdomainSearchFrom st rest

/-- `Service._is_subdomain`: split the name on dots and search the proper
suffixes, starting at label offset 1; `none` models the `return False`. -/
def is_subdomain (st : Storage) (domain_name : String) : Option Domain :=
  subdomainSearchFrom st ((splitDots domain_name).drop 1)

/-! ## Blacklist check and domain creation -/

/-- The configuration surface `create_domain` reads, together with the
external regular-expression collaborator: `reSearch pat s` models
`bool(re.search(pat, s))`. -/
structure Config where
  domain_name_blacklist : List String
  reSearch : String → String → Bool

/-- `Service._is_blacklisted_domain_name`: return the first configured
blacklist pattern that matches the name (`none` models `return False`). -/
def is_blacklisted_domain_name (cfg : Config) (domain_name : String) :
    Option String :=
  cfg.domain_name_blacklist.find? (fun pat => cfg.reSearch pat domain_name)

/-- Python truthiness of the value `_is_blacklisted_domain_name` returns:
`False` is falsy, and the returned pattern string is truthy iff non-empty. -/
def truthyPattern : Option String → Bool
  | some pat => !pat.isEmpty
  | none => false

/-- The caller-supplied values of `create_domain` (the service itself then
sets `tenant_id` and, for subdomains, `parent_domain_id`). -/
structure DomainCreateValues where
  name : String
  email : String
  deriving DecidableEq, Repr

/-- `Service.create_domain`: set the tenant from the context, policy-check,
blacklist-check (requiring `use_blacklisted_domain` when the returned
pattern is truthy), resolve a parent domain and enforce same-tenant
subdomains, require at least one server, then persist, propagate to the
backend and notify. -/
def create_domain (cfg : Config) (pol : Policy) (st : Storage) (ctx : Context)
    (values : DomainCreateValues) : OpResult Domain :=
  let tenant_id := ctx.tenant_id
  let target : Target := [("tenant_id", tenant_id), ("domain_name", values.name)]
  if pol "create_domain" ctx target then
    if truthyPattern (is_blacklisted_domain_name cfg values.name)
        && !(pol "use_blacklisted_domain" ctx []) then
      (.error (Err.Forbidden "use_blacklisted_domain"), st, [])
    else
      let parent_check : Except Err (Option Nat) :=
        match is_subdomain st values.name with
        | some parent =>
          if parent.tenant_id == tenant_id then .ok (some parent.id)
          else .error (Err.Forbidden
            "Unable to create subdomain in another tenants domain")
        | none => .ok none
      match parent_check with
      | .error e => (.error e, st, [])
      | .ok parent_domain_id =>
        if st.servers.length == 0 then
          (.error Err.NoServersConfigured, st, [])
        else
          let domain : Domain :=
            { id := freshDomainId st, name := values.name,
              email := values.email, tenant_id := tenant_id,
              parent_domain_id := parent_domain_id }
          (.ok domain, { st with domains := st.domains ++ [domain] },
           [.storageWrite "create_domain", .backendCall "create_domain",
            .notifyEvent "domain.create"])
  else (.error (Err.Forbidden "create_domain"), st, [])

/-! ## Domain update and listing -/

/-- The values mapping of `update_domain`; `none` models the key being
absent from the dict. -/
structure DomainUpdateValues where
  name : Option String := none
  email : Option String := none
  tenant_id : Option String := none
  deriving DecidableEq, Repr

/-- The row the storage engine produces when applying an update values
mapping to a stored domain: present keys overwrite the stored fields. -/
def applyDomainValues (d : Domain) (v : DomainUpdateValues) : Domain :=
  { d with name := v.name.getD d.name, email := v.email.getD d.email,
           tenant_id := v.tenant_id.getD d.tenant_id }

/-- Storage `update_domain(domain_id, values)`. -/
def storage_update_domain (st : Storage) (domain_id : Nat)
    (v : DomainUpdateValues) : Storage :=
  { st with domains :=
      st.domains.map (fun d =>
        if d.id == domain_id then applyDomainValues d v else d) }

/-- `Service.update_domain`: fetch, policy-check `update_domain`; when
`tenant_id` is present, the two-phase transfer checks (`delete_domain` on
the current target, `create_domain` on the new tenant target); when `name`
is present and differs from the stored name, fail with BadRequest; then
persist, propagate to the backend and notify. -/
def update_domain (pol : Policy) (st : Storage) (ctx : Context)
    (domain_id : Nat) (values : DomainUpdateValues) : OpResult Domain :=
  match storage_get_domain st domain_id with
  | none => (.error Err.DomainNotFound, st, [])
  | some domain =>
    let target : Target := [("domain_id", toString domain_id),
      ("domain_name", domain.name), ("tenant_id", domain.tenant_id)]
    if pol "update_domain" ctx target then
      let transfer_check : Except Err Unit :=
        match values.tenant_id with
        | some new_tenant =>
          if pol "delete_domain" ctx target then
            if pol "create_domain" ctx
                [("domain_id", toString domain_id),
                 ("tenant_id", new_tenant)] then .ok ()
            else .error (Err.Forbidden "create_domain")
          else .error (Err.Forbidden "delete_domain")
        | none => .ok ()
      match transfer_check with
      | .error e => (.error e, st, [])
      | .ok _ =>
        if (match values.name with
            | some new_name => new_name != domain.name
            | none => false) then
          (.error (Err.BadRequest "Renaming a domain is not allowed"), st, [])
        else
          (.ok (applyDomainValues domain values),
           storage_update_domain st domain_id values,
           [.storageWrite "update_domain", .backendCall "update_domain",
            .notifyEvent "domain.update"])
    else (.error (Err.Forbidden "update_domain"), st, [])

/-- The exact-match criterion mapping of the domain list query; `none`
models the key being absent. -/
structure Criterion where
  tenant_id : Option String := none
  name : Option String := none
  deriving DecidableEq, Repr

/-- Whether a stored domain satisfies every filter present in a criterion. -/
def domainMatches (c : Criterion) (d : Domain) : Bool :=
  (match c.tenant_id with | some t => d.tenant_id == t | none => true) &&
  (match c.name with | some n => d.name == n | none => true)

/-- Storage `get_domains(criterion)`: the rows matching the criterion. -/
def storage_get_domains (st : Storage) (c : Criterion) : List Domain :=
  st.domains.filter (domainMatches c)

/-- The criterion `get_domains` passes to Storage: a missing criterion
becomes `{}`, and a non-admin caller's `tenant_id` entry is set to the
context's tenant, overriding any supplied value. -/
def get_domains_criterion (ctx : Context) (criterion : Option Criterion) :
    Criterion :=
  let c := criterion.getD {}
  if !ctx.is_admin then { c with tenant_id := some ctx.tenant_id } else c

/-- `Service.get_domains`: policy-check, build the effective criterion, and
query Storage with it. -/
def get_domains (pol : Policy) (st : Storage) (ctx : Context)
    (criterion : Option Criterion) : Except Err (List Domain) :=
  if pol "get_domains" ctx [("tenant_id", ctx.tenant_id)] then
    .ok (storage_get_domains st (get_domains_criterion ctx criterion))
  else .error (Err.Forbidden "get_domains")

/-! ## Record operations -/

/-- The values mapping of `create_record` (`name` is required by the code). -/
structure RecordCreateValues where
  name : String
  rtype : String
  data : String
  deriving DecidableEq, Repr

/-- The values mapping of `update_record`; `none` models an absent key. -/
structure RecordUpdateValues where
  name : Option String := none
  rtype : Option String := none
  data : Option String := none
  deriving DecidableEq, Repr

/-- The row the storage engine produces when applying an update values
mapping to a stored record. -/
def applyRecordValues (r : DnsRecord) (v : RecordUpdateValues) : DnsRecord :=
  { r with name := v.name.getD r.name, rtype := v.rtype.getD r.rtype,
           data := v.data.getD r.data }

/-- Storage `update_record(record_id, values)`. -/
def storage_update_record (st : Storage) (record_id : Nat)
    (v : RecordUpdateValues) : Storage :=
  { st with records :=
      st.records.map (fun r =>
        if r.id == record_id then applyRecordValues r v else r) }

/-- Storage `delete_record(record_id)`. -/
def storage_delete_record (st : Storage) (record_id : Nat) : Storage :=
  { st with records := st.records.filter (fun r => !(r.id == record_id)) }

/-- `Service.create_record`: fetch the domain, policy-check, require the
record's name to end with the domain's name, then persist, propagate to the
backend and notify. -/
def create_record (pol : Policy) (st : Storage) (ctx : Context)
    (domain_id : Nat) (values : RecordCreateValues) : OpResult DnsRecord :=
  match storage_get_domain st domain_id with
  | none => (.error Err.DomainNotFound, st, [])
  | some domain =>
    let target : Target := [("domain_id", toString domain_id),
      ("domain_name", domain.name), ("record_name", values.name),
      ("tenant_id", domain.tenant_id)]
    if pol "create_record" ctx target then
      if !(strEndsWith values.name domain.name) then
        (.error (Err.BadRequest
          "Records must be contained within their parent zone."), st, [])
      else
        let record : DnsRecord :=
          { id := freshRecordId st, domain_id := domain_id,
            name := values.name, rtype := values.rtype, data := values.data }
        (.ok record, { st with records := st.records ++ [record] },
         [.storageWrite "create_record", .backendCall "create_record",
          .notifyEvent "record.create"])
    else (.error (Err.Forbidden "create_record"), st, [])

/-- `Service.get_record`: fetch the domain and the record independently,
fail with RecordNotFound when the record's `domain_id` differs from the
fetched domain's id, then policy-check and return the record. -/
def get_record (pol : Policy) (st : Storage) (ctx : Context)
    (domain_id record_id : Nat) : OpResult DnsRecord :=
  match storage_get_domain st domain_id with
  | none => (.error Err.DomainNotFound, st, [])
  | some domain =>
    match storage_get_record st record_id with
    | none => (.error Err.RecordNotFound, st, [])
    | some record =>
      if !(domain.id == record.domain_id) then
        (.error Err.RecordNotFound, st, [])
      else
        let target : Target := [("domain_id", toString domain_id),
          ("domain_name", domain.name), ("record_id", toString record.id),
          ("tenant_id", domain.tenant_id)]
        if pol "get_record" ctx target then (.ok record, st, [])
        else (.error (Err.Forbidden "get_record"), st, [])

/-- `Service.update_record`: fetch both, check the `domain_id` match,
policy-check, enforce zone containment only when `name` is present in the
values, then persist, propagate to the backend and notify. -/
def update_record (pol : Policy) (st : Storage) (ctx : Context)
    (domain_id record_id : Nat) (values : RecordUpdateValues) :
    OpResult DnsRecord :=
  match storage_get_domain st domain_id with
  | none => (.error Err.DomainNotFound, st, [])
  | some domain =>
    match storage_get_record st record_id with
    | none => (.error Err.RecordNotFound, st, [])
    | some record =>
      if !(domain.id == record.domain_id) then
        (.error Err.RecordNotFound, st, [])
      else
        let target : Target := [("domain_id", toString domain_id),
          ("domain_name", domain.name), ("record_id", toString record.id),
          ("tenant_id", domain.tenant_id)]
        if pol "update_record" ctx target then
          if (match values.name with
              | some new_name => !(strEndsWith new_name domain.name)
              | none => false) then
            (.error (Err.BadRequest
              "Records must be contained within their parent zone."), st, [])
          else
            (.ok (applyRecordValues record values),
             storage_update_record st record_id values,
             [.storageWrite "update_record", .backendCall "update_record",
              .notifyEvent "record.update"])
        else (.error (Err.Forbidden "update_record"), st, [])

/-- `Service.delete_record`: fetch both, check the `domain_id` match,
policy-check, then backend delete, notify, and storage delete, in that
order. -/
def delete_record (pol : Policy) (st : Storage) (ctx : Context)
    (domain_id record_id : Nat) : OpResult DnsRecord :=
  match storage_get_domain st domain_id with
  | none => (.error Err.DomainNotFound, st, [])
  | some domain =>
    match storage_get_record st record_id with
    | none => (.error Err.RecordNotFound, st, [])
    | some record =>
      if !(domain.id == record.domain_id) then
        (.error Err.RecordNotFound, st, [])
      else
        let target : Target := [("domain_id", toString domain_id),
          ("domain_name", domain.name), ("record_id", toString record.id),
          ("tenant_id", domain.tenant_id)]
        if pol "delete_record" ctx target then
          (.ok record, storage_delete_record st record_id,
           [.backendCall "delete_record", .notifyEvent "record.delete",
            .storageWrite "delete_record"])
        else (.error (Err.Forbidden "delete_record"), st, [])

/-! ## Theorems -/

/-- The dispatch loop of `_process_notification`, unrolled: offering the
notification to every handler in order invokes exactly the handlers whose
declared event types contain the notification's event type. -/
theorem dispatch_foldl_eq (n : Notification) (handlers : List Handler)
    (acc : List Effect) :
    handlers.foldl (fun acc h => acc ++ process_notification_for_handler h n)
        acc =
      acc ++ (handlers.filter (fun h => n.event_type ∈ h.event_types)).map
        (fun h => Effect.handlerCall h.id n.event_type n.payload) := by
  induction handlers generalizing acc with
  | nil => simp
  | cons h t ih =>
    simp only [List.foldl_cons, List.filter_cons]
    by_cases hm : n.event_type ∈ h.event_types
    · rw [ih]
      simp [process_notification_for_handler, hm]
    · rw [ih]
      simp [process_notification_for_handler, hm]

/-- Claim C8: when the inbound notification's event type is not in the union
of event types declared by the loaded handlers, no handler is invoked;
otherwise `process_notification(event_type, payload)` is invoked exactly for
each handler whose own declared event-type set contains the event type,
sequentially in handler-registration order. -/
theorem C8_notification_dispatch (handlers : List Handler)
    (n : Notification) :
    process_notification handlers n =
      if n.event_type ∈ get_handler_event_types handlers then
        (handlers.filter (fun h => n.event_type ∈ h.event_types)).map
          (fun h => Effect.handlerCall h.id n.event_type n.payload)
      else [] := by
  unfold process_notification
  by_cases hmem : n.event_type ∈ get_handler_event_types handlers
  · rw [if_pos hmem, if_pos hmem, dispatch_foldl_eq, List.nil_append]
  · rw [if_neg hmem, if_neg hmem]

/-- The suffix search underlying `_is_subdomain` returns the first suffix
whose dotted name exists in Storage: all strictly longer proper suffixes
were queried and missed. -/
theorem subdomainSearchFrom_eq_some (st : Storage) (ls : List String)
    (d : Domain) (h : subdomainSearchFrom st ls = some d) :
    ∃ k, k < ls.length ∧
      storage_find_domain st (joinDots (ls.drop k)) = some d ∧
      ∀ j, j < k → storage_find_domain st (joinDots (ls.drop j)) = none := by
  induction ls with
  | nil => simp [subdomainSearchFrom] at h
  | cons l rest ih =>
    rw [subdomainSearchFrom] at h
    cases hf : storage_find_domain st (joinDots (l :: rest)) with
    | some d0 =>
      rw [hf] at h
      refine ⟨0, Nat.succ_pos _, ?_, ?_⟩
      · simpa using hf.trans h
      · intro j hj
        exact absurd hj (Nat.not_lt_zero j)
    | none =>
      rw [hf] at h
      obtain ⟨k, hk, hfind, hnone⟩ := ih h
      refine ⟨k + 1, Nat.succ_lt_succ hk, ?_, ?_⟩
      · simpa using hfind
      · intro j hj
        cases j with
        | zero => simpa using hf
        | succ j0 =>
          simpa using hnone j0 (Nat.lt_of_succ_lt_succ hj)

/-- The suffix search underlying `_is_subdomain` returns `False` only after
querying every nonempty suffix and missing. -/
theorem subdomainSearchFrom_eq_none (st : Storage) (ls : List String)
    (h : subdomainSearchFrom st ls = none) :
    ∀ k, k < ls.length → storage_find_domain st (joinDots (ls.drop k)) = none := by
  induction ls with
  | nil => intro k hk; exact absurd hk (Nat.not_lt_zero k)
  | cons l rest ih =>
    rw [subdomainSearchFrom] at h
    cases hf : storage_find_domain st (joinDots (l :: rest)) with
    | some d0 => rw [hf] at h; exact absurd h (by simp)
    | none =>
      rw [hf] at h
      intro k hk
      cases k with
      | zero => simpa using hf
      | succ k0 => simpa using ih h k0 (Nat.lt_of_succ_lt_succ hk)

/-- Claim C2: subdomain resolution splits the name into dot-separated labels
and, for increasing offset `i = 1 .. len(labels)-1`, queries Storage for the
domain named by `labels[i:]` joined with dots, returning the first match (the
nearest ancestor) without searching further up; in `create_domain`, a found
ancestor of the same tenant becomes the created domain's
`parent_domain_id`, and a found ancestor of another tenant makes the call
fail with Forbidden, with no Storage write and no further effects. -/
theorem C2_subdomain_resolution (cfg : Config) (pol : Policy) (st : Storage)
    (ctx : Context) (v : DomainCreateValues)
    (hpol : pol "create_domain" ctx
      [("tenant_id", ctx.tenant_id), ("domain_name", v.name)] = true)
    (hbl : is_blacklisted_domain_name cfg v.name = none) :
    (∀ d, is_subdomain st v.name = some d →
      ∃ i, 1 ≤ i ∧ i < (splitDots v.name).length ∧
        storage_find_domain st (joinDots ((splitDots v.name).drop i))
          = some d ∧
        ∀ j, 1 ≤ j → j < i →
          storage_find_domain st (joinDots ((splitDots v.name).drop j))
            = none) ∧
    (is_subdomain st v.name = none →
      ∀ i, 1 ≤ i → i < (splitDots v.name).length →
        storage_find_domain st (joinDots ((splitDots v.name).drop i))
          = none) ∧
    (∀ parent, is_subdomain st v.name = some parent →
      parent.tenant_id = ctx.tenant_id → st.servers.length ≠ 0 →
      (create_domain cfg pol st ctx v).1 =
        .ok { id := freshDomainId st, name := v.name, email := v.email,
              tenant_id := ctx.tenant_id,
              parent_domain_id := some parent.id }) ∧
    (∀ parent, is_subdomain st v.name = some parent →
      parent.tenant_id ≠ ctx.tenant_id →
      create_domain cfg pol st ctx v =
        (.error (Err.Forbidden
          "Unable to create subdomain in another tenants domain"),
         st, [])) := by
  refine ⟨?_, ?_, ?_, ?_⟩
  · intro d hd
    obtain ⟨k, hk, hfind, hnone⟩ := subdomainSearchFrom_eq_some st _ d hd
    rw [List.length_drop] at hk
    refine ⟨k + 1, Nat.le_add_left 1 k, by omega, ?_, ?_⟩
    · rw [List.drop_drop] at hfind
      simpa [Nat.add_comm 1 k] using hfind
    · intro j hj1 hji
      cases j with
      | zero => omega
      | succ j0 =>
        have := hnone j0 (by omega)
        rw [List.drop_drop] at this
        simpa [Nat.add_comm 1 j0] using this
  · intro hnone i hi1 hilen
    cases i with
    | zero => omega
    | succ i0 =>
      have := subdomainSearchFrom_eq_none st _ hnone i0
        (by rw [List.length_drop]; omega)
      rw [List.drop_drop] at this
      simpa [Nat.add_comm 1 i0] using this
  · intro parent hp heq hserv
    simp [create_domain, hpol, hbl, truthyPattern, hp, heq, hserv]
  · intro parent hp hne
    simp [create_domain, hpol, hbl, truthyPattern, hp, hne]

/-- Claim C3: for a stored Record R and Domain D with `R.domain_id ≠ D.id`,
each of `get_record`, `update_record` and `delete_record` called with
`(domain_id = D.id, record_id = R.id)` fails with RecordNotFound even though
R exists in Storage, with no mutation and no side effect. -/
theorem C3_record_domain_mismatch (pol : Policy) (st : Storage)
    (ctx : Context) (D : Domain) (R : DnsRecord) (uv : RecordUpdateValues)
    (hD : storage_get_domain st D.id = some D)
    (hR : storage_get_record st R.id = some R)
    (hne : R.domain_id ≠ D.id) :
    get_record pol st ctx D.id R.id = (.error Err.RecordNotFound, st, []) ∧
    update_record pol st ctx D.id R.id uv
      = (.error Err.RecordNotFound, st, []) ∧
    delete_record pol st ctx D.id R.id
      = (.error Err.RecordNotFound, st, []) := by
  have hmm : (D.id == R.domain_id) = false := by
    simp only [beq_eq_false_iff_ne, ne_eq]
    exact fun h => hne h.symm
  refine ⟨?_, ?_, ?_⟩
  · simp [get_record, hD, hR, hmm]
  · simp [update_record, hD, hR, hmm]
  · simp [delete_record, hD, hR, hmm]

/-- Claim C4: `update_domain` with a values mapping whose `name` entry is
present and differs from the stored domain's name fails with BadRequest,
leaving Storage unchanged and performing no backend call or notification
(given that every policy check the call reaches is granted). -/
theorem C4_update_domain_rename (pol : Policy) (st : Storage) (ctx : Context)
    (domain_id : Nat) (values : DomainUpdateValues) (D : Domain) (n : String)
    (hD : storage_get_domain st domain_id = some D)
    (hpol : pol "update_domain" ctx
      [("domain_id", toString domain_id), ("domain_name", D.name),
       ("tenant_id", D.tenant_id)] = true)
    (htransfer : ∀ t, values.tenant_id = some t →
      pol "delete_domain" ctx
        [("domain_id", toString domain_id), ("domain_name", D.name),
         ("tenant_id", D.tenant_id)] = true ∧
      pol "create_domain" ctx
        [("domain_id", toString domain_id), ("tenant_id", t)] = true)
    (hn : values.name = some n) (hne : n ≠ D.name) :
    update_domain pol st ctx domain_id values =
      (.error (Err.BadRequest "Renaming a domain is not allowed"), st, []) := by
  cases ht : values.tenant_id with
  | none => simp [update_domain, hD, hpol, ht, hn, hne]
  | some t =>
    obtain ⟨h1, h2⟩ := htransfer t ht
    simp [update_domain, hD, hpol, ht, h1, h2, hn, hne]

/-- Claim C5: `create_domain` on otherwise-valid input (policy granted, name
not blacklisted, no cross-tenant ancestor) fails with NoServersConfigured
when Storage contains zero Servers, with no Storage write, no backend call
and no notification. -/
theorem C5_no_servers (cfg : Config) (pol : Policy) (st : Storage)
    (ctx : Context) (v : DomainCreateValues)
    (hpol : pol "create_domain" ctx
      [("tenant_id", ctx.tenant_id), ("domain_name", v.name)] = true)
    (hbl : is_blacklisted_domain_name cfg v.name = none)
    (hparent : ∀ p, is_subdomain st v.name = some p →
      p.tenant_id = ctx.tenant_id)
    (hservers : st.servers = []) :
    create_domain cfg pol st ctx v =
      (.error Err.NoServersConfigured, st, []) := by
  cases hp : is_subdomain st v.name with
  | none => simp [create_domain, hpol, hbl, truthyPattern, hp, hservers]
  | some p =>
    have := hparent p hp
    simp [create_domain, hpol, hbl, truthyPattern, hp, this, hservers]

/-- Fixture for the C6 counterexample: blacklist configured as the single
pattern `""` together with the regular-expression collaborator's actual
behaviour on it — `re.search("", s)` matches every string. -/
def cfgEmptyPat : Config := ⟨[""], fun _ _ => true⟩

/-- Fixture policy: grants everything except `use_blacklisted_domain`. -/
def polNoBlacklistUse : Policy :=
  fun action _ _ => action != "use_blacklisted_domain"

/-- Fixture storage: no domains or records, one server. -/
def stOneServer : Storage := ⟨[], [], [⟨1, "ns1"⟩]⟩

/-- Claim C6 counterexample: with the blacklist pattern `""` (a valid
regular expression that matches every name), the domain name matches a
configured blacklist pattern and the caller is denied
`use_blacklisted_domain`, yet `create_domain` does not fail with Forbidden:
`_is_blacklisted_domain_name` returns the matched pattern itself and
`create_domain` tests its Python truthiness, so the empty matched pattern
is falsy and the policy gate is skipped; the creation succeeds and writes
to Storage. -/
theorem C6_blacklist_counterexample :
    cfgEmptyPat.reSearch "" "evil.com." = true ∧
    "" ∈ cfgEmptyPat.domain_name_blacklist ∧
    polNoBlacklistUse "use_blacklisted_domain" ⟨"tenantA", false⟩ []
      = false ∧
    create_domain cfgEmptyPat polNoBlacklistUse stOneServer
        ⟨"tenantA", false⟩ ⟨"evil.com.", "a@b"⟩ =
      (.ok { id := 0, name := "evil.com.", email := "a@b",
             tenant_id := "tenantA", parent_domain_id := none },
       { domains := [{ id := 0, name := "evil.com.", email := "a@b",
                       tenant_id := "tenantA", parent_domain_id := none }],
         records := [], servers := [⟨1, "ns1"⟩] },
       [.storageWrite "create_domain", .backendCall "create_domain",
        .notifyEvent "domain.create"]) := by
  refine ⟨rfl, by simp [cfgEmptyPat], rfl, by rfl⟩

/-- Claim C6 as amended: when the first matching blacklist pattern is a
non-empty string (the truthy case of the value `_is_blacklisted_domain_name`
returns), a caller granted `create_domain` but denied
`use_blacklisted_domain` fails with Forbidden and no Storage write or other
effect occurs; a caller granted `use_blacklisted_domain` continues exactly
as if no blacklist were configured. -/
theorem C6_blacklist_amended (cfg : Config) (pol : Policy) (st : Storage)
    (ctx : Context) (v : DomainCreateValues) (pat : String)
    (hfound : is_blacklisted_domain_name cfg v.name = some pat)
    (hne : pat.isEmpty = false)
    (hpol : pol "create_domain" ctx
      [("tenant_id", ctx.tenant_id), ("domain_name", v.name)] = true) :
    (pol "use_blacklisted_domain" ctx [] = false →
      create_domain cfg pol st ctx v =
        (.error (Err.Forbidden "use_blacklisted_domain"), st, [])) ∧
    (pol "use_blacklisted_domain" ctx [] = true →
      create_domain cfg pol st ctx v =
        create_domain ⟨[], cfg.reSearch⟩ pol st ctx v) := by
  constructor
  · intro hdeny
    simp [create_domain, hpol, hfound, truthyPattern, hne, hdeny]
  · intro hgrant
    simp [create_domain, hpol, hfound, truthyPattern, hne, hgrant,
      is_blacklisted_domain_name]

/-- Claim C7: `create_record` (and `update_record` when a `name` is
supplied) fails with BadRequest and performs no write when the supplied
record name does not end with the owning domain's name, and passes the
containment check (proceeding to the Storage write) when it does. -/
theorem C7_record_zone_containment (pol : Policy) (st : Storage)
    (ctx : Context) (domain_id record_id : Nat) (D : Domain) (R : DnsRecord)
    (cv : RecordCreateValues) (uv : RecordUpdateValues) (n : String)
    (hD : storage_get_domain st domain_id = some D)
    (hpolC : pol "create_record" ctx
      [("domain_id", toString domain_id), ("domain_name", D.name),
       ("record_name", cv.name), ("tenant_id", D.tenant_id)] = true)
    (hR : storage_get_record st record_id = some R)
    (hmatch : D.id = R.domain_id)
    (hpolU : pol "update_record" ctx
      [("domain_id", toString domain_id), ("domain_name", D.name),
       ("record_id", toString R.id), ("tenant_id", D.tenant_id)] = true)
    (hn : uv.name = some n) :
    (strEndsWith cv.name D.name = false →
      create_record pol st ctx domain_id cv =
        (.error (Err.BadRequest
          "Records must be contained within their parent zone."), st, [])) ∧
    (strEndsWith cv.name D.name = true →
      create_record pol st ctx domain_id cv =
        (.ok { id := freshRecordId st, domain_id := domain_id,
               name := cv.name, rtype := cv.rtype, data := cv.data },
         { st with records := st.records ++
             [{ id := freshRecordId st, domain_id := domain_id,
                name := cv.name, rtype := cv.rtype, data := cv.data }] },
         [.storageWrite "create_record", .backendCall "create_record",
          .notifyEvent "record.create"])) ∧
    (strEndsWith n D.name = false →
      update_record pol st ctx domain_id record_id uv =
        (.error (Err.BadRequest
          "Records must be contained within their parent zone."), st, [])) ∧
    (strEndsWith n D.name = true →
      update_record pol st ctx domain_id record_id uv =
        (.ok (applyRecordValues R uv),
         storage_update_record st record_id uv,
         [.storageWrite "update_record", .backendCall "update_record",
          .notifyEvent "record.update"])) := by
  refine ⟨?_, ?_, ?_, ?_⟩
  · intro hend
    simp [create_record, hD, hpolC, hend]
  · intro hend
    simp [create_record, hD, hpolC, hend]
  · intro hend
    simp [update_record, hD, hR, hmatch, hpolU, hn, hend]
  · intro hend
    simp [update_record, hD, hR, hmatch, hpolU, hn, hend]

/-- Claim C9: `get_domains` by a non-admin caller passes Storage a criterion
whose `tenant_id` entry is the caller's tenant (overriding any supplied
value), so every returned domain belongs to the caller's tenant; an admin
caller supplying no criterion passes Storage the empty criterion and
receives the domains of all tenants. -/
theorem C9_get_domains_tenant_scope (pol : Policy) (st : Storage)
    (ctx : Context) (criterion : Option Criterion)
    (hpol : pol "get_domains" ctx [("tenant_id", ctx.tenant_id)] = true) :
    (ctx.is_admin = false →
      (get_domains_criterion ctx criterion).tenant_id = some ctx.tenant_id ∧
      get_domains pol st ctx criterion =
        .ok (storage_get_domains st (get_domains_criterion ctx criterion)) ∧
      ∀ d ∈ storage_get_domains st (get_domains_criterion ctx criterion),
        d.tenant_id = ctx.tenant_id) ∧
    (ctx.is_admin = true → criterion = none →
      get_domains_criterion ctx criterion = {} ∧
      get_domains pol st ctx criterion = .ok st.domains) := by
  constructor
  · intro hadmin
    refine ⟨by simp [get_domains_criterion, hadmin], by simp [get_domains, hpol], ?_⟩
    intro d hd
    have hmatches := (List.mem_filter.mp hd).2
    rw [domainMatches, get_domains_criterion] at hmatches
    simp [hadmin] at hmatches
    exact hmatches.1
  · intro hadmin hcrit
    subst hcrit
    refine ⟨by simp [get_domains_criterion, hadmin], ?_⟩
    have hall : storage_get_domains st (get_domains_criterion ctx none)
        = st.domains := by
      apply List.filter_eq_self.mpr
      intro d _
      simp [domainMatches, get_domains_criterion, hadmin]
    simp [get_domains, hpol, hall]

/-- Claim C10: `update_record` with a values mapping containing no `name`
key skips the zone-containment check entirely — even when the stored
record's name does not end with the domain's name — and proceeds to the
Storage update, the backend call and the notification; it never fails with
BadRequest. -/
theorem C10_update_record_skips_containment (pol : Policy) (st : Storage)
    (ctx : Context) (domain_id record_id : Nat) (D : Domain) (R : DnsRecord)
    (uv : RecordUpdateValues)
    (hD : storage_get_domain st domain_id = some D)
    (hR : storage_get_record st record_id = some R)
    (hmatch : D.id = R.domain_id)
    (hpol : pol "update_record" ctx
      [("domain_id", toString domain_id), ("domain_name", D.name),
       ("record_id", toString R.id), ("tenant_id", D.tenant_id)] = true)
    (hn : uv.name = none) :
    update_record pol st ctx domain_id record_id uv =
      (.ok (applyRecordValues R uv),
       storage_update_record st record_id uv,
       [.storageWrite "update_record", .backendCall "update_record",
        .notifyEvent "record.update"]) := by
  simp [update_record, hD, hR, hmatch, hpol, hn]

/-! ## Concrete witnesses -/

/-- Fixture policy granting every check. -/
def polAll : Policy := fun _ _ _ => true

/-- Fixture configuration with no blacklist patterns. -/
def cfgBare : Config := ⟨[], fun _ _ => false⟩

/-- Fixture storage: the domain `example.com.` of tenant A; a record owned
by domain id 2 (absent) and a record owned by domain 1 whose name lies
outside the zone; one server. -/
def stFix : Storage :=
  ⟨[⟨1, "example.com.", "a@b", "A", none⟩],
   [⟨10, 2, "foreign.org.", "A", "1.1.1.1"⟩,
    ⟨11, 1, "www.other.com.", "A", "2.2.2.2"⟩],
   [⟨1, "ns1"⟩]⟩

/-- Fixture contexts: tenants A and B, and an admin. -/
def ctxA : Context := ⟨"A", false⟩

/-- Tenant B's context. -/
def ctxB : Context := ⟨"B", false⟩

/-- An admin context. -/
def ctxAdmin : Context := ⟨"root", true⟩

/-- Witness for C2: creating `sub.example.com.` as tenant A records
`example.com.`'s id as the parent; as tenant B it fails with Forbidden and
leaves Storage untouched. -/
theorem C2_subdomain_resolution_witness :
    (create_domain cfgBare polAll stFix ctxA ⟨"sub.example.com.", "e@x"⟩).1 =
      .ok { id := freshDomainId stFix, name := "sub.example.com.",
            email := "e@x", tenant_id := ctxA.tenant_id,
            parent_domain_id := some 1 } ∧
    create_domain cfgBare polAll stFix ctxB ⟨"sub.example.com.", "e@x"⟩ =
      (.error (Err.Forbidden
        "Unable to create subdomain in another tenants domain"),
       stFix, []) := by
  constructor
  · exact (C2_subdomain_resolution cfgBare polAll stFix ctxA
      ⟨"sub.example.com.", "e@x"⟩ rfl rfl).2.2.1
      ⟨1, "example.com.", "a@b", "A", none⟩ rfl rfl (by simp [stFix])
  · exact (C2_subdomain_resolution cfgBare polAll stFix ctxB
      ⟨"sub.example.com.", "e@x"⟩ rfl rfl).2.2.2
      ⟨1, "example.com.", "a@b", "A", none⟩ rfl (by decide)

/-- Witness for C3: record 10 exists but belongs to domain 2, so addressing
it under domain 1 yields RecordNotFound from all three operations. -/
theorem C3_record_domain_mismatch_witness :
    get_record polAll stFix ctxA 1 10
      = (.error Err.RecordNotFound, stFix, []) ∧
    update_record polAll stFix ctxA 1 10 {}
      = (.error Err.RecordNotFound, stFix, []) ∧
    delete_record polAll stFix ctxA 1 10
      = (.error Err.RecordNotFound, stFix, []) :=
  C3_record_domain_mismatch polAll stFix ctxA
    ⟨1, "example.com.", "a@b", "A", none⟩
    ⟨10, 2, "foreign.org.", "A", "1.1.1.1"⟩ {} rfl rfl (by decide)

/-- Witness for C4: renaming `example.com.` fails with BadRequest and
changes nothing. -/
theorem C4_update_domain_rename_witness :
    update_domain polAll stFix ctxA 1 { name := some "renamed.com." } =
      (.error (Err.BadRequest "Renaming a domain is not allowed"),
       stFix, []) :=
  C4_update_domain_rename polAll stFix ctxA 1 { name := some "renamed.com." }
    ⟨1, "example.com.", "a@b", "A", none⟩ "renamed.com." rfl rfl
    (fun _ ht => Option.noConfusion ht) rfl (by decide)

/-- Fixture storage with no servers configured. -/
def stNoServers : Storage := ⟨[], [], []⟩

/-- Witness for C5: with zero servers, an otherwise-valid creation fails
with NoServersConfigured and changes nothing. -/
theorem C5_no_servers_witness :
    create_domain cfgBare polAll stNoServers ctxA ⟨"example.net.", "a@b"⟩ =
      (.error Err.NoServersConfigured, stNoServers, []) :=
  C5_no_servers cfgBare polAll stNoServers ctxA ⟨"example.net.", "a@b"⟩
    rfl rfl
    (fun p hp => by
      have h0 : (none : Option Domain) = some p := hp
      exact Option.noConfusion h0)
    rfl

/-- Fixture configuration whose single blacklist pattern is the non-empty
`"bad"`, with a matcher that reports a match. -/
def cfgBad : Config := ⟨["bad"], fun _ _ => true⟩

/-- Witness for the amended C6: with the non-empty first matching pattern
`"bad"`, denial of `use_blacklisted_domain` makes creation fail with
Forbidden and no effects, while a grant continues as if no blacklist were
configured. -/
theorem C6_blacklist_amended_witness :
    (polNoBlacklistUse "use_blacklisted_domain" ctxA [] = false →
      create_domain cfgBad polNoBlacklistUse stOneServer ctxA
          ⟨"bad.com.", "a@b"⟩ =
        (.error (Err.Forbidden "use_blacklisted_domain"),
         stOneServer, [])) ∧
    (polNoBlacklistUse "use_blacklisted_domain" ctxA [] = true →
      create_domain cfgBad polNoBlacklistUse stOneServer ctxA
          ⟨"bad.com.", "a@b"⟩ =
        create_domain ⟨[], cfgBad.reSearch⟩ polNoBlacklistUse stOneServer
          ctxA ⟨"bad.com.", "a@b"⟩) :=
  C6_blacklist_amended cfgBad polNoBlacklistUse stOneServer ctxA
    ⟨"bad.com.", "a@b"⟩ "bad" rfl rfl rfl

/-- Witness for C7: under `example.com.`, creating or renaming to
`www.other.com.` fails with BadRequest and no effects, while
`www.example.com.` passes the containment check and reaches Storage. -/
theorem C7_record_zone_containment_witness :
    create_record polAll stFix ctxA 1 ⟨"www.other.com.", "A", "1.2.3.4"⟩ =
      (.error (Err.BadRequest
        "Records must be contained within their parent zone."),
       stFix, []) ∧
    create_record polAll stFix ctxA 1 ⟨"www.example.com.", "A", "1.2.3.4"⟩ =
      (.ok { id := freshRecordId stFix, domain_id := 1,
             name := "www.example.com.", rtype := "A", data := "1.2.3.4" },
       { stFix with records := stFix.records ++
           [{ id := freshRecordId stFix, domain_id := 1,
              name := "www.example.com.", rtype := "A",
              data := "1.2.3.4" }] },
       [.storageWrite "create_record", .backendCall "create_record",
        .notifyEvent "record.create"]) ∧
    update_record polAll stFix ctxA 1 11 { name := some "www.other.com." } =
      (.error (Err.BadRequest
        "Records must be contained within their parent zone."),
       stFix, []) ∧
    update_record polAll stFix ctxA 1 11
        { name := some "www.example.com." } =
      (.ok (applyRecordValues ⟨11, 1, "www.other.com.", "A", "2.2.2.2"⟩
              { name := some "www.example.com." }),
       storage_update_record stFix 11 { name := some "www.example.com." },
       [.storageWrite "update_record", .backendCall "update_record",
        .notifyEvent "record.update"]) := by
  refine ⟨?_, ?_, ?_, ?_⟩
  · exact (C7_record_zone_containment polAll stFix ctxA 1 11
      ⟨1, "example.com.", "a@b", "A", none⟩
      ⟨11, 1, "www.other.com.", "A", "2.2.2.2"⟩
      ⟨"www.other.com.", "A", "1.2.3.4"⟩ { name := some "www.other.com." }
      "www.other.com." rfl rfl rfl rfl rfl rfl).1 rfl
  · exact (C7_record_zone_containment polAll stFix ctxA 1 11
      ⟨1, "example.com.", "a@b", "A", none⟩
      ⟨11, 1, "www.other.com.", "A", "2.2.2.2"⟩
      ⟨"www.example.com.", "A", "1.2.3.4"⟩
      { name := some "www.example.com." }
      "www.example.com." rfl rfl rfl rfl rfl rfl).2.1 rfl
  · exact (C7_record_zone_containment polAll stFix ctxA 1 11
      ⟨1, "example.com.", "a@b", "A", none⟩
      ⟨11, 1, "www.other.com.", "A", "2.2.2.2"⟩
      ⟨"www.other.com.", "A", "1.2.3.4"⟩ { name := some "www.other.com." }
      "www.other.com." rfl rfl rfl rfl rfl rfl).2.2.1 rfl
  · exact (C7_record_zone_containment polAll stFix ctxA 1 11
      ⟨1, "example.com.", "a@b", "A", none⟩
      ⟨11, 1, "www.other.com.", "A", "2.2.2.2"⟩
      ⟨"www.example.com.", "A", "1.2.3.4"⟩
      { name := some "www.example.com." }
      "www.example.com." rfl rfl rfl rfl rfl rfl).2.2.2 rfl

/-- Witness for C9: tenant A's non-admin query with a supplied `tenant_id`
of B is overridden to A and returns only A's domains; the admin query with
no criterion uses the empty criterion and returns every domain. -/
theorem C9_get_domains_tenant_scope_witness :
    ((get_domains_criterion ctxA (some ⟨some "B", none⟩)).tenant_id
        = some ctxA.tenant_id ∧
      get_domains polAll stFix ctxA (some ⟨some "B", none⟩) =
        .ok (storage_get_domains stFix
          (get_domains_criterion ctxA (some ⟨some "B", none⟩))) ∧
      ∀ d ∈ storage_get_domains stFix
          (get_domains_criterion ctxA (some ⟨some "B", none⟩)),
        d.tenant_id = ctxA.tenant_id) ∧
    (get_domains_criterion ctxAdmin none = {} ∧
      get_domains polAll stFix ctxAdmin none = .ok stFix.domains) := by
  constructor
  · exact (C9_get_domains_tenant_scope polAll stFix ctxA
      (some ⟨some "B", none⟩) rfl).1 rfl
  · exact (C9_get_domains_tenant_scope polAll stFix ctxAdmin none rfl).2
      rfl rfl

/-- Witness for C10: record 11's stored name `www.other.com.` does not end
with `example.com.`, yet an update supplying no `name` proceeds to Storage,
the backend and the notification. -/
theorem C10_update_record_skips_containment_witness :
    update_record polAll stFix ctxA 1 11 { data := some "9.9.9.9" } =
      (.ok (applyRecordValues ⟨11, 1, "www.other.com.", "A", "2.2.2.2"⟩
              { data := some "9.9.9.9" }),
       storage_update_record stFix 11 { data := some "9.9.9.9" },
       [.storageWrite "update_record", .backendCall "update_record",
        .notifyEvent "record.update"]) :=
  C10_update_record_skips_containment polAll stFix ctxA 1 11
    ⟨1, "example.com.", "a@b", "A", none⟩
    ⟨11, 1, "www.other.com.", "A", "2.2.2.2"⟩
    { data := some "9.9.9.9" } rfl rfl rfl rfl rfl

end Moniker
